import Mathlib

/-!
Verification development for the reddit-product-idea-generator repository.

The subject is the discussion-to-problem extraction and idea-generation
pipeline:
* `ContentProcessor` (src/lib/processing/content-processor.ts),
* the OpenAI response validation layer (src/lib/llm/openai-client.ts),
* the `IdeaGeneratorPipeline` orchestrator (pipeline module).

Modelling conventions:
* JS strings are Lean `String`; `String.includes` is substring containment
  on the underlying character lists; `toLowerCase` is `String.toLower`
  (the keyword tables are ASCII, where the two agree).
* JS numbers are `Int` where the code only adds/subtracts integers and `ℚ`
  where division occurs; `Math.round x` is `⌊x + 1/2⌋` (half away from
  minus infinity, as in JS), `Math.min`/`Math.max` are `min`/`max`.
* The wall clock (`Date.now()`, `new Date().getMonth()`) is an explicit
  `Clock` value threaded through the functions that read it; a run reads
  one clock value.
* SHA-256 (an external crypto-library call) is an abstract `digest`
  function parameter; everything the repository computes before the digest
  is modelled exactly.
* External collaborators (Reddit fetch, Supabase persistence, OpenAI) are
  oracle functions carried in a `PipelineEnv`; a call that may reject is an
  `Except String` value.
* JS `Array.prototype.sort` (stable since ES2019) is `List.mergeSort`,
  which is a stable sort; `Set<string>` membership state is an explicit
  seen-list.
-/

/-- `s.includes sub` in JS: `sub` occurs as a contiguous substring of `s`. -/
def jsIncludes (s sub : String) : Bool := decide (sub.data <:+: s.data)

/-- `Math.round` on a rational: floor of `x + 1/2`, JS half-up rounding. -/
def jsRound (q : ℚ) : Int := ⌊q + 1/2⌋

/-- `Array.prototype.join(sep)` on a list of strings. -/
def joinSep (sep : String) : List String → String
  | [] => ""
  | [s] => s
  | s :: t :: rest => s ++ sep ++ joinSep sep (t :: rest)

/-- One field-splitting pass of `String.prototype.split` against the regex
class `p` with a `+` quantifier: separator runs are collapsed, fields at the
boundaries may be empty (exactly the JS result list). The fuel argument is
seeded with the input length, which the character count never exceeds, so
the zero-fuel branch is unreachable. -/
def splitRunsGo (p : Char → Bool) : Nat → List Char → List Char → List (List Char)
  | _, acc, [] => [acc.reverse]
  | 0, acc, _ => [acc.reverse]
  | fuel + 1, acc, c :: rest =>
    if p c then acc.reverse :: splitRunsGo p fuel [] (rest.dropWhile p)
    else splitRunsGo p fuel (c :: acc) rest

/-- `text.split(regexClass+)` for a character class `p`. -/
def jsSplit (p : Char → Bool) (s : String) : List String :=
  (splitRunsGo p s.data.length [] s.data).map String.mk

/-- Character class `[.!?]` used by sentence segmentation. -/
def isSentenceSep (c : Char) : Bool := c == '.' || c == '!' || c == '?'

/-- JS `\s` whitespace class. -/
def isWsChar (c : Char) : Bool := c.isWhitespace

/-- JS `\w` word-character class `[A-Za-z0-9_]`. -/
def isWordChar (c : Char) : Bool := c.isAlphanum || c == '_'

-- ===========================================================================
-- Data model: Reddit thread inputs and the processor's clock
-- ===========================================================================

/-- A Reddit root post, as consumed by the processor and the pipeline. -/
structure RedditPost where
  id : String
  title : String
  selftext : Option String
  author : String
  score : Int
  num_comments : Nat
  upvote_ratio : ℚ
  created_utc : Int
  permalink : String
  url : String
  stickied : Bool
  subreddit : String
deriving DecidableEq, Repr

/-- A Reddit comment (only the fields the core reads). -/
structure RedditComment where
  body : String
  score : Int
deriving DecidableEq, Repr

/-- One reading of the wall clock: `Date.now()` in milliseconds and
`new Date().getMonth()` (0-11). -/
structure Clock where
  now : Int
  month : Nat
deriving DecidableEq, Repr

inductive SourceType | post | comment
deriving DecidableEq, Repr

-- ===========================================================================
-- ContentProcessor: keyword tables (compiled-in constants of the source)
-- ===========================================================================

def PROBLEM_KEYWORDS : List String :=
  ["struggling with", "problem with", "issue with", "difficulty", "challenge",
   "frustrating", "annoying", "broken", "doesn't work", "failing",
   "need help", "looking for", "wish there was", "if only",
   "waste time", "takes forever", "so slow", "inefficient", "manual process",
   "repetitive", "tedious", "time-consuming", "expensive", "costly",
   "alternative to", "better than", "replace", "automate", "simplify",
   "streamline", "optimize", "improve", "solution", "tool for"]

def DOMAIN_KEYWORDS : List (String × List String) :=
  [("business", ["revenue", "customers", "sales", "marketing", "growth", "startup"]),
   ("tech", ["software", "app", "platform", "api", "code", "development"]),
   ("productivity", ["workflow", "process", "efficiency", "time management", "organization"]),
   ("health", ["wellness", "fitness", "mental health", "medical", "healthcare"]),
   ("finance", ["money", "budget", "investment", "expense", "financial", "accounting"]),
   ("education", ["learning", "course", "training", "skill", "knowledge", "study"])]

def highSeverityWords : List String :=
  ["critical", "urgent", "broken", "failing", "disaster", "nightmare",
   "impossible", "terrible", "awful", "hate", "frustrated", "angry"]

def lowSeverityWords : List String :=
  ["minor", "small", "little", "slight", "would be nice", "improvement"]

def urgentWords : List String :=
  ["now", "immediately", "asap", "urgent", "quickly", "deadline",
   "today", "this week", "right away", "emergency"]

def nonUrgentWords : List String :=
  ["someday", "eventually", "future", "when i have time", "nice to have"]

def scaleIndicators : List (List String × ℚ) :=
  [(["everyone", "all", "everybody"], 1000000),
   (["most people", "many", "lots of"], 100000),
   (["some people", "several"], 10000),
   (["few people", "a couple"], 1000),
   (["i", "me", "my"], 100)]

-- ===========================================================================
-- ContentProcessor: fingerprint
-- ===========================================================================

/-- The string hashed by `generateContentHash`: title, selftext (empty when
absent) and the first five comment bodies, joined with the bar separator. -/
def hashInput (post : RedditPost) (comments : List RedditComment) : String :=
  joinSep "|" ([post.title, post.selftext.getD ""] ++ (comments.take 5).map (·.body))

/-- `generateContentHash`: the external SHA-256 digest applied to
`hashInput`. The digest is abstract; the preimage construction is exact. -/
def generateContentHash (digest : String → String)
    (post : RedditPost) (comments : List RedditComment) : String :=
  digest (hashInput post comments)

-- ===========================================================================
-- ContentProcessor: problem extraction
-- ===========================================================================

structure ProblemStatement where
  text : String
  severity : Int
  domain : String
  userCount : ℚ
  urgency : Int
  keywords : List String
deriving DecidableEq, Repr

/-- `splitIntoSentences`: split on `[.!?]+`, keep spans whose trimmed length
exceeds 10 (the spans themselves are kept untrimmed, as in the source). -/
def splitIntoSentences (text : String) : List String :=
  (jsSplit isSentenceSep text).filter (fun s => 10 < s.trim.length)

def containsProblemIndicators (text : String) : Bool :=
  PROBLEM_KEYWORDS.any (fun k => jsIncludes text.toLower k)

/-- `identifyDomain`'s loop over `Object.entries(DOMAIN_KEYWORDS)`: return
the first domain whose keyword list scores at least 2 substring hits. -/
def identifyDomainGo (lowText : String) : List (String × List String) → String
  | [] => "general"
  | (d, kws) :: rest =>
    if 2 ≤ (kws.filter (fun k => jsIncludes lowText k)).length then d
    else identifyDomainGo lowText rest

def identifyDomain (text : String) : String :=
  identifyDomainGo text.toLower DOMAIN_KEYWORDS

/-- `calculateSeverity`: baseline 5, +1 per high-severity list word present,
-1 per low-severity list word present, clamped to [1, 10]. -/
def calculateSeverity (text : String) : Int :=
  let low := text.toLower
  let s : Int := 5 + (highSeverityWords.filter (fun w => jsIncludes low w)).length
      - (lowSeverityWords.filter (fun w => jsIncludes low w)).length
  max 1 (min 10 s)

/-- `calculateUrgency`: same shape with the urgency word lists. -/
def calculateUrgency (text : String) : Int :=
  let low := text.toLower
  let s : Int := 5 + (urgentWords.filter (fun w => jsIncludes low w)).length
      - (nonUrgentWords.filter (fun w => jsIncludes low w)).length
  max 1 (min 10 s)

/-- `estimateUserCount`: first matching scale indicator wins; comments get a
0.5 factor; default 5000. -/
def estimateUserCount (text : String) (source : SourceType) : ℚ :=
  let low := text.toLower
  match scaleIndicators.find? (fun ind => ind.1.any (fun w => jsIncludes low w)) with
  | some ind => match source with
    | .post => ind.2
    | .comment => ind.2 * (1/2)
  | none => 5000

/-- Comparator order of the frequency sort in `extractKeywords` (stable,
descending by count; JS stable `sort` is modelled as a stable insertion
sort). -/
def countGe (a b : String × Nat) : Prop := b.2 ≤ a.2

instance : DecidableRel countGe := fun a b => Nat.decLe b.2 a.2

/-- Insertion-ordered word tally, mirroring `Map<string, number>` built by
insertion: a fresh word is appended, a seen word's count is bumped in place. -/
def bumpCount : List (String × Nat) → String → List (String × Nat)
  | [], w => [(w, 1)]
  | (k, n) :: rest, w =>
    if k = w then (k, n + 1) :: rest else (k, n) :: bumpCount rest w

/-- `extractKeywords`: lowercase, delete non-word non-space characters, split
on whitespace, keep words longer than 3, sort by frequency (stable,
descending), take 5. -/
def extractKeywords (text : String) : List String :=
  let cleaned := String.mk (text.toLower.data.filter (fun c => isWordChar c || isWsChar c))
  let words := (jsSplit isWsChar cleaned).filter (fun w => 3 < w.length)
  let counts := words.foldl bumpCount []
  ((List.insertionSort countGe counts).take 5).map (·.1)

/-- `createProblemStatement`: `none` outside the [20, 500] length window. -/
def createProblemStatement (text : String) (source : SourceType) :
    Option ProblemStatement :=
  if text.length < 20 ∨ 500 < text.length then none
  else some
    { text := text.trim
      severity := calculateSeverity text
      domain := identifyDomain text
      userCount := estimateUserCount text source
      urgency := calculateUrgency text
      keywords := extractKeywords text }

def extractProblemsFromText (text : String) (source : SourceType) :
    List ProblemStatement :=
  (splitIntoSentences text).filterMap (fun s =>
    if containsProblemIndicators s then createProblemStatement s source else none)

/-- `deduplicateProblems`'s seen-set filter keyed on the lowercased first 50
characters of the problem text. -/
def problemKey (p : ProblemStatement) : String := p.text.toLower.take 50

def dedupProblemsGo (seen : List String) : List ProblemStatement → List ProblemStatement
  | [] => []
  | p :: rest =>
    if problemKey p ∈ seen then dedupProblemsGo seen rest
    else p :: dedupProblemsGo (problemKey p :: seen) rest

def deduplicateProblems (problems : List ProblemStatement) : List ProblemStatement :=
  dedupProblemsGo [] problems

/-- `extractProblems`: main post text plus up to 10 comments with score at
least 5 and body longer than 50 characters, then the in-thread dedup. -/
def extractProblems (post : RedditPost) (comments : List RedditComment) :
    List ProblemStatement :=
  let postProblems :=
    extractProblemsFromText (post.title ++ " " ++ post.selftext.getD "") .post
  let highValue := (comments.filter (fun c => 5 ≤ c.score ∧ 50 < c.body.length)).take 10
  deduplicateProblems
    (postProblems ++ highValue.flatMap (fun c => extractProblemsFromText c.body .comment))

-- ===========================================================================
-- ContentProcessor: context, sentiment, quality
-- ===========================================================================

structure EngagementMetrics where
  score : Int
  commentCount : Nat
  upvote_ratio : ℚ
  controversiality : Nat
  viralityScore : ℚ
deriving DecidableEq, Repr

inductive TrendingStatus | hot | rising | stable | declining
deriving DecidableEq, Repr

structure TemporalContext where
  postAge : ℚ
  trendingStatus : TrendingStatus
  seasonality : String
deriving DecidableEq, Repr

inductive Sentiment | positive | negative | neutral | frustrated | excited
deriving DecidableEq, Repr

structure SentimentAnalysis where
  overall : Sentiment
  frustrationLevel : Nat
  urgencyIndicators : List String
  emotionalWords : List String
deriving DecidableEq, Repr

structure SourcePostRef where
  id : String
  permalink : String
  url : String
deriving DecidableEq, Repr

structure ContentContext where
  subreddit : String
  category : String
  engagement : EngagementMetrics
  temporalContext : TemporalContext
  userSentiment : SentimentAnalysis
  sourcePost : SourcePostRef
deriving DecidableEq, Repr

/-- Hours since creation as read from the clock:
`(Date.now() - created_utc * 1000) / (1000 * 60 * 60)`. -/
def postAgeHours (clk : Clock) (post : RedditPost) : ℚ :=
  ((clk.now - post.created_utc * 1000 : Int) : ℚ) / 3600000

/-- `calculateEngagementMetrics`: virality is score over age-in-hours (at
least 1), times 10, capped at 100. -/
def calculateEngagementMetrics (clk : Clock) (post : RedditPost) : EngagementMetrics :=
  let viralityScore : ℚ :=
    min 100 (((post.score : ℚ) / max 1 (postAgeHours clk post)) * 10)
  { score := post.score
    commentCount := post.num_comments
    upvote_ratio := post.upvote_ratio
    controversiality := if post.upvote_ratio < 7/10 then 1 else 0
    viralityScore := viralityScore }

def seasonsTable : List String :=
  ["Winter", "Winter", "Spring", "Spring", "Spring", "Summer",
   "Summer", "Summer", "Fall", "Fall", "Fall", "Winter"]

/-- `getSeasonality`: season of `new Date().getMonth()`; the month read from
the clock is in [0, 11], the default covers the impossible overflow. -/
def getSeasonality (clk : Clock) : String := seasonsTable.getD clk.month "Winter"

/-- `analyzeTemporalContext`: age plus the threshold-based trending label. -/
def analyzeTemporalContext (clk : Clock) (post : RedditPost) : TemporalContext :=
  let age := postAgeHours clk post
  let status : TrendingStatus :=
    if age < 2 ∧ post.score > 100 then .hot
    else if age < 6 ∧ post.score > 50 then .rising
    else if age > 24 ∧ post.score < 10 then .declining
    else .stable
  { postAge := age, trendingStatus := status, seasonality := getSeasonality clk }

def frustrationWords : List String :=
  ["frustrated", "annoying", "hate", "terrible", "awful", "broken"]

def excitementWords : List String :=
  ["excited", "amazing", "awesome", "love", "great", "fantastic"]

def urgencyIndicatorWords : List String :=
  ["deadline", "urgent", "asap", "immediately", "critical"]

/-- `analyzeSentiment` over title, selftext and the first five comment
bodies, joined with spaces and lowercased. -/
def analyzeSentiment (post : RedditPost) (comments : List RedditComment) :
    SentimentAnalysis :=
  let allText :=
    (joinSep " " ([post.title, post.selftext.getD ""] ++ (comments.take 5).map (·.body))).toLower
  let frustrationCount := (frustrationWords.filter (fun w => jsIncludes allText w)).length
  let excitementCount := (excitementWords.filter (fun w => jsIncludes allText w)).length
  let overall : Sentiment :=
    if frustrationCount > excitementCount ∧ frustrationCount > 0 then .frustrated
    else if excitementCount > frustrationCount ∧ excitementCount > 0 then .excited
    else .neutral
  { overall := overall
    frustrationLevel := min 10 (frustrationCount * 2)
    urgencyIndicators := urgencyIndicatorWords.filter (fun w => jsIncludes allText w)
    emotionalWords := (frustrationWords ++ excitementWords).filter (fun w => jsIncludes allText w) }

def categoryMap : List (String × String) :=
  [("entrepreneur", "Business"), ("smallbusiness", "Business"),
   ("SaaS", "Software"), ("webdev", "Technology"),
   ("productivity", "Lifestyle"), ("freelance", "Business"),
   ("startups", "Business")]

def mapSubredditToCategory (subreddit : String) : String :=
  ((categoryMap.find? (fun e => e.1 = subreddit)).map (·.2)).getD "General"

/-- `analyzeContext`. -/
def analyzeContext (clk : Clock) (post : RedditPost) (comments : List RedditComment) :
    ContentContext :=
  { subreddit := post.subreddit
    category := mapSubredditToCategory post.subreddit
    engagement := calculateEngagementMetrics clk post
    temporalContext := analyzeTemporalContext clk post
    userSentiment := analyzeSentiment post comments
    sourcePost := { id := post.id, permalink := post.permalink, url := post.url } }

structure QualityScore where
  overall : Int
  contentLength : Nat
  readability : Int
  specificity : Int
  actionability : Int
  authenticity : Int
deriving DecidableEq, Repr

/-- `calculateReadability`: 90 for 15-20 words per sentence, 70 for 10-25,
else 50; counts come from the raw JS split lists. -/
def calculateReadability (text : String) : Int :=
  let sentences := (jsSplit isSentenceSep text).length
  let words := (jsSplit isWsChar text).length
  let avg : ℚ := (words : ℚ) / max 1 (sentences : ℚ)
  if 15 ≤ avg ∧ avg ≤ 20 then 90
  else if 10 ≤ avg ∧ avg ≤ 25 then 70
  else 50

def actionWords : List String :=
  ["need", "want", "looking for", "solution", "help", "fix"]

def calculateActionability (post : RedditPost) : Int :=
  let allText := (post.title ++ post.selftext.getD "").toLower
  min 100 (((actionWords.filter (fun w => jsIncludes allText w)).length : Int) * 20)

def calculateAuthenticity (post : RedditPost) : Int :=
  let s1 : Int := 70 + (if 100 < (post.selftext.getD "").length then 10 else 0)
  let s2 : Int := s1 + (if post.score > 10 then 10 else 0)
  let s3 : Int := s2 + (if ¬ (jsIncludes post.title.toLower "check out" = true) then 10 else 0)
  min 100 s3

/-- `calculateQualityScore`: clamped rounded mean of the four sub-scores. -/
def calculateQualityScore (post : RedditPost) (problems : List ProblemStatement) :
    QualityScore :=
  let contentLength := (post.title ++ post.selftext.getD "").length
  let readability := calculateReadability (post.title ++ post.selftext.getD "")
  let specificity : Int := match problems with
    | [] => 0
    | p :: _ => (p.keywords.length : Int) * 10
  let actionability := calculateActionability post
  let authenticity := calculateAuthenticity post
  let overall :=
    jsRound (((readability + specificity + actionability + authenticity : Int) : ℚ) / 4)
  { overall := max 0 (min 100 overall)
    contentLength := contentLength
    readability := readability
    specificity := specificity
    actionability := actionability
    authenticity := authenticity }

structure ProcessingMetadata where
  processedAt : Int
  processingVersion : String
  sourceType : SourceType
  processingTime : Int
deriving DecidableEq, Repr

structure ProcessedContent where
  contentHash : String
  problems : List ProblemStatement
  context : ContentContext
  quality : QualityScore
  metadata : ProcessingMetadata
deriving DecidableEq, Repr

/-- `ContentProcessor.processContent`. The two `Date.now()` reads that only
feed the excluded timestamp fields are modelled by the single run clock, so
`processingTime` is 0. -/
def processContent (digest : String → String) (clk : Clock)
    (post : RedditPost) (comments : List RedditComment) : ProcessedContent :=
  let problems := extractProblems post comments
  { contentHash := generateContentHash digest post comments
    problems := problems
    context := analyzeContext clk post comments
    quality := calculateQualityScore post problems
    metadata :=
      { processedAt := clk.now
        processingVersion := "1.0.0"
        sourceType := .post
        processingTime := 0 } }

-- ===========================================================================
-- OpenAI client layer: idea shapes, validation, response parsing
-- ===========================================================================

/-- A scoring object as it arrives in the parsed JSON: each sub-field is
`none` when absent or not a number. -/
structure RawScoring where
  overall : Option ℚ
  painSeverity : Option ℚ
  marketSize : Option ℚ
  competition : Option ℚ
  implementationDifficulty : Option ℚ
deriving DecidableEq, Repr

/-- An idea as it arrives in the parsed JSON, before validation: string
fields are `none` when absent (`some ""` is falsy too), array and object
fields are `none` when absent. -/
structure RawIdea where
  name : Option String
  elevatorPitch : Option String
  targetAudience : Option String
  painPointSolved : Option String
  solutionApproach : Option String
  category : Option String
  reasoning : Option String
  scoring : Option RawScoring
  tags : Option (List String)
  sourceSubreddits : Option (List String)
  sourceLinks : Option (List String)
deriving DecidableEq, Repr

/-- JS truthiness of an optional string: absent and empty are falsy. -/
def truthyStr : Option String → Bool
  | none => false
  | some s => s ≠ ""

/-- One scoring sub-field check of `validateIdea`: present (a number) and
inside [0, 100]. -/
def scoreOk : Option ℚ → Bool
  | none => false
  | some v => 0 ≤ v ∧ v ≤ 100

/-- The five scoring sub-field checks of `validateIdea`. -/
def scoringOk : Option RawScoring → Bool
  | none => false
  | some s =>
    scoreOk s.overall && scoreOk s.painSeverity && scoreOk s.marketSize &&
      scoreOk s.competition && scoreOk s.implementationDifficulty

def nonEmptyArr : Option (List String) → Bool
  | none => false
  | some l => !l.isEmpty

/-- `validateIdea`: required fields truthy, all five scoring sub-fields
numeric in [0, 100], and the three array fields nonempty. -/
def validateIdea (idea : RawIdea) : Bool :=
  truthyStr idea.name && truthyStr idea.elevatorPitch &&
    truthyStr idea.targetAudience && truthyStr idea.painPointSolved &&
    truthyStr idea.solutionApproach && idea.scoring.isSome &&
    idea.tags.isSome && truthyStr idea.category &&
    idea.sourceSubreddits.isSome && idea.sourceLinks.isSome &&
    scoringOk idea.scoring &&
    nonEmptyArr idea.tags && nonEmptyArr idea.sourceSubreddits &&
    nonEmptyArr idea.sourceLinks

/-- The `scoring.overall` a raw idea carries (0 when absent; only read after
validation, which guarantees presence). -/
def overallOf (idea : RawIdea) : ℚ :=
  match idea.scoring with
  | none => 0
  | some s => s.overall.getD 0

structure IdeaScoring where
  overall : ℚ
  painSeverity : ℚ
  marketSize : ℚ
  competition : ℚ
  implementationDifficulty : ℚ
deriving DecidableEq, Repr

/-- A validated product idea as the pipeline handles it. -/
structure ProductIdea where
  name : String
  elevatorPitch : String
  targetAudience : String
  painPointSolved : String
  solutionApproach : String
  category : String
  reasoning : String
  scoring : IdeaScoring
  tags : List String
  sourceSubreddits : List String
  sourceLinks : List String
  createdAt : Int
  isNew : Bool
deriving DecidableEq, Repr

/-- The spread `{ ...idea, createdAt: new Date(), isNew: true }` applied to a
raw idea (defaults are only reachable for fields validation guarantees). -/
def ideaOfRaw (now : Int) (r : RawIdea) : ProductIdea :=
  { name := r.name.getD ""
    elevatorPitch := r.elevatorPitch.getD ""
    targetAudience := r.targetAudience.getD ""
    painPointSolved := r.painPointSolved.getD ""
    solutionApproach := r.solutionApproach.getD ""
    category := r.category.getD ""
    reasoning := r.reasoning.getD ""
    scoring :=
      match r.scoring with
      | none => { overall := 0, painSeverity := 0, marketSize := 0,
                  competition := 0, implementationDifficulty := 0 }
      | some s => { overall := s.overall.getD 0, painSeverity := s.painSeverity.getD 0,
                    marketSize := s.marketSize.getD 0, competition := s.competition.getD 0,
                    implementationDifficulty := s.implementationDifficulty.getD 0 }
    tags := r.tags.getD []
    sourceSubreddits := r.sourceSubreddits.getD []
    sourceLinks := r.sourceLinks.getD []
    createdAt := now
    isNew := true }

structure GenerationConfig where
  maxIdeas : Nat
  minScore : ℚ
  creativityLevel : String
  model : String
deriving DecidableEq, Repr

/-- The idea-list processing of `parseResponse`: keep ideas passing
`validateIdea`, keep ideas with `scoring.overall >= config.minScore`, slice
to `config.maxIdeas`, stamp `createdAt`/`isNew`. -/
def parseIdeas (config : GenerationConfig) (now : Int) (raws : List RawIdea) :
    List ProductIdea :=
  ((((raws.filter validateIdea).filter
      (fun r => config.minScore ≤ overallOf r)).take config.maxIdeas).map
    (ideaOfRaw now))

-- ===========================================================================
-- IdeaAggregator: deduplicateIdeas and rankIdeas
-- ===========================================================================

/-- The composite dedup key: lower-cased name and target audience joined by
an underscore. -/
def ideaKey (i : ProductIdea) : String :=
  i.name.toLower ++ "_" ++ i.targetAudience.toLower

/-- The `Set<string>`-driven filter of `deduplicateIdeas`. -/
def dedupIdeasGo (seen : List String) : List ProductIdea → List ProductIdea
  | [] => []
  | i :: rest =>
    if ideaKey i ∈ seen then dedupIdeasGo seen rest
    else i :: dedupIdeasGo (ideaKey i :: seen) rest

def deduplicateIdeas (ideas : List ProductIdea) : List ProductIdea :=
  dedupIdeasGo [] ideas

/-- Comparator order of `rankIdeas`'s sort: descending overall. The JS
comparator `(a, b) => b.scoring.overall - a.scoring.overall` under the
stable ES2019 `Array.prototype.sort`, modelled as a stable insertion sort. -/
def rankRel (a b : ProductIdea) : Prop := b.scoring.overall ≤ a.scoring.overall

instance : DecidableRel rankRel :=
  fun a b => inferInstanceAs (Decidable (b.scoring.overall ≤ a.scoring.overall))

instance : IsTotal ProductIdea rankRel :=
  ⟨fun a b => le_total b.scoring.overall a.scoring.overall⟩

instance : IsTrans ProductIdea rankRel :=
  ⟨fun _ _ _ h1 h2 => le_trans h2 h1⟩

/-- `rankIdeas`: stable sort descending by `scoring.overall`, truncate. -/
def rankIdeas (ideas : List ProductIdea) (maxIdeas : Nat) : List ProductIdea :=
  (List.insertionSort rankRel ideas).take maxIdeas

/-- The merge step of `generateIdeasFromContent`: dedup, then rank. -/
def mergeIdeas (ideas : List ProductIdea) (maxIdeas : Nat) : List ProductIdea :=
  rankIdeas (deduplicateIdeas ideas) maxIdeas

-- ===========================================================================
-- Pipeline orchestrator: configuration, environment, result
-- ===========================================================================

structure PipelineConfig where
  maxPostsPerSubreddit : Nat
  maxCommentsPerPost : Nat
  minPostScore : Int
  minCommentScore : Int
  sortTypes : List String
  generationConfig : GenerationConfig
  enableDeduplication : Bool
  maxProcessingTime : Nat
deriving DecidableEq, Repr

/-- Where the `Promise.race` against the timeout preempts the run: after
`sourcesDone` sources, and (when the run got that far) after the final idea
list was assigned to the result. Mutations made before the preemption point
are retained, as with the shared result object in the source. -/
structure TimeoutCut where
  sourcesDone : Nat
  ideasAssigned : Bool
deriving DecidableEq, Repr

/-- The collaborator oracle for one run. `fetchPosts`/`fetchComments` model
the Reddit client, `dupLookup` the fingerprint existence check (keyed by
content hash), `genResponse` the parsed JSON idea array the generation call
yields for one category's content batch (or any rejection of that call),
`digest` the SHA-256 call. `postRaises`
and `sourceRaises` model a JS exception escaping the per-post and per-source
bodies (possible with malformed collaborator data); `timeoutCut` is `none`
when processing finishes inside the wall-clock budget. The write-only
persistence calls (`storeTemporaryContent`, `storeGeneratedIdeas`,
`logPipelineResult`) catch their own failures and feed nothing back into the
run, so they need no oracle. -/
structure PipelineEnv where
  subreddits : List String
  clock : Clock
  digest : String → String
  fetchPosts : String → String → Except String (List RedditPost)
  fetchComments : String → String → Except String (List RedditComment)
  dupLookup : String → Except String Bool
  postRaises : RedditPost → Option String
  sourceRaises : String → Option String
  genResponse : String → List ProcessedContent → Except String (List RawIdea)
  timeoutCut : Option TimeoutCut

structure PipelineResult where
  success : Bool
  ideasGenerated : Nat
  subredditsProcessed : Nat
  postsAnalyzed : Nat
  errors : List String
  ideas : List ProductIdea
deriving Repr

-- ===========================================================================
-- Pipeline orchestrator: per-post and per-source processing
-- ===========================================================================

/-- `fetchSubredditPosts`: a rejected fetch is caught and yields `[]`. -/
def fetchSubredditPosts (env : PipelineEnv) (subreddit sortType : String) :
    List RedditPost :=
  match env.fetchPosts subreddit sortType with
  | .error _ => []
  | .ok posts => posts

/-- `fetchPostComments`: a rejected fetch is caught and yields `[]`;
otherwise filter by comment score and body length, then slice. -/
def fetchPostComments (env : PipelineEnv) (config : PipelineConfig)
    (subreddit postId : String) : List RedditComment :=
  match env.fetchComments subreddit postId with
  | .error _ => []
  | .ok comments =>
    (comments.filter (fun c => config.minCommentScore ≤ c.score ∧ 20 < c.body.length)).take
      config.maxCommentsPerPost

/-- `isDuplicateContent`: hash of the post alone (no comments); a failed
lookup is caught and treated as "not a duplicate" (fail-open). -/
def isDuplicateContent (env : PipelineEnv) (post : RedditPost) : Bool :=
  match env.dupLookup (generateContentHash env.digest post []) with
  | .error _ => false
  | .ok b => b

/-- The skip conditions at the top of the per-post loop body. -/
def postQualifies (env : PipelineEnv) (config : PipelineConfig)
    (post : RedditPost) : Bool :=
  !(post.score < config.minPostScore) && !post.stickied &&
    !(config.enableDeduplication && isDuplicateContent env post)

/-- Outcome of one iteration of the per-post loop: at most one error string,
at most one processed content, counters for `postsProcessed` and
`problemsIdentified`. -/
structure PostStep where
  errors : List String
  content : List ProcessedContent
  postsProcessed : Nat
  problemsIdentified : Nat

def processPost (env : PipelineEnv) (config : PipelineConfig)
    (subreddit : String) (post : RedditPost) : PostStep :=
  if postQualifies env config post then
    match env.postRaises post with
    | some msg =>
      { errors := ["Post " ++ post.id ++ ": " ++ msg], content := [],
        postsProcessed := 0, problemsIdentified := 0 }
    | none =>
      let comments := fetchPostComments env config subreddit post.id
      let processed := processContent env.digest env.clock post comments
      { errors := [], content := [processed], postsProcessed := 1,
        problemsIdentified := processed.problems.length }
  else
    { errors := [], content := [], postsProcessed := 0, problemsIdentified := 0 }

/-- All posts a source contributes, over the configured sort types (the
fetch limit is consumed by the external collaborator). -/
def sourcePosts (env : PipelineEnv) (config : PipelineConfig)
    (subreddit : String) : List RedditPost :=
  config.sortTypes.flatMap (fun st => fetchSubredditPosts env subreddit st)

structure SubredditProcessingResult where
  errors : List String
  content : List ProcessedContent
  postsProcessed : Nat
  problemsIdentified : Nat

/-- `processSubreddit`: the per-post loop; every per-post failure is caught
in place, so the accumulated lists concatenate the per-post outcomes. -/
def processSubreddit (env : PipelineEnv) (config : PipelineConfig)
    (subreddit : String) : SubredditProcessingResult :=
  let steps := (sourcePosts env config subreddit).map (processPost env config subreddit)
  { errors := steps.flatMap (·.errors)
    content := steps.flatMap (·.content)
    postsProcessed := (steps.map (·.postsProcessed)).sum
    problemsIdentified := (steps.map (·.problemsIdentified)).sum }

-- ===========================================================================
-- Pipeline orchestrator: cross-source accumulation and generation
-- ===========================================================================

/-- Accumulated state of `executeProcessing` before the generation stage. -/
structure ExecAccum where
  errors : List String
  content : List ProcessedContent
  subredditsProcessed : Nat
  postsAnalyzed : Nat

/-- One iteration of the per-source loop in `executeProcessing`: a rejection
of `processSubreddit` is caught and recorded, later sources run anyway. -/
def sourceStep (env : PipelineEnv) (config : PipelineConfig)
    (subreddit : String) : ExecAccum :=
  match env.sourceRaises subreddit with
  | some msg =>
    { errors := ["Subreddit " ++ subreddit ++ ": " ++ msg], content := [],
      subredditsProcessed := 0, postsAnalyzed := 0 }
  | none =>
    let r := processSubreddit env config subreddit
    { errors := r.errors, content := r.content, subredditsProcessed := 1,
      postsAnalyzed := r.postsProcessed }

def execAccum (env : PipelineEnv) (config : PipelineConfig)
    (subreddits : List String) : ExecAccum :=
  let steps := subreddits.map (sourceStep env config)
  { errors := steps.flatMap (·.errors)
    content := steps.flatMap (·.content)
    subredditsProcessed := (steps.map (·.subredditsProcessed)).sum
    postsAnalyzed := (steps.map (·.postsAnalyzed)).sum }

/-- First-occurrence deduplication of category names, the key order of the
string-keyed record built by `groupContentByCategory`. -/
def firstOccurrences (seen : List String) : List String → List String
  | [] => []
  | c :: rest =>
    if c ∈ seen then firstOccurrences seen rest
    else c :: firstOccurrences (c :: seen) rest

def categoriesOf (content : List ProcessedContent) : List String :=
  firstOccurrences [] (content.map (·.context.category))

/-- `generateIdeasFromContent`: per category (in record key order), call the
generation collaborator with the per-category quota
`ceil(maxIdeas / categoryCount)`; a rejected call contributes nothing; merge
everything, dedup, rank. -/
def generateIdeasFromContent (env : PipelineEnv) (config : GenerationConfig)
    (content : List ProcessedContent) : List ProductIdea :=
  let cats := categoriesOf content
  let quota : Nat := (⌈(config.maxIdeas : ℚ) / (cats.length : ℚ)⌉).toNat
  let allIdeas := cats.flatMap (fun cat =>
    match env.genResponse cat (content.filter (fun c => c.context.category = cat)) with
    | .error _ => []
    | .ok raws => parseIdeas { config with maxIdeas := quota } env.clock.now raws)
  mergeIdeas allIdeas config.maxIdeas

/-- The idea list `executeProcessing` leaves on the result: generation runs
only when at least one processed content item exists. -/
def pipelineIdeas (env : PipelineEnv) (config : PipelineConfig)
    (acc : ExecAccum) : List ProductIdea :=
  if acc.content.isEmpty then []
  else generateIdeasFromContent env config.generationConfig acc.content

/-- Whether the run reaches and performs the generation stage. -/
def generationAttempted (env : PipelineEnv) (config : PipelineConfig) : Bool :=
  (match env.timeoutCut with
   | none => true
   | some cut => cut.ideasAssigned) &&
  !(execAccum env config env.subreddits).content.isEmpty

/-- `runPipeline`: race the processing stages against the wall-clock budget;
on a timeout the shared result keeps whatever was accumulated, gains the
timeout error and stays unsuccessful. All collaborator failures below this
level are caught where they occur, so a result is always returned. -/
def runPipeline (env : PipelineEnv) (config : PipelineConfig) : PipelineResult :=
  match env.timeoutCut with
  | none =>
    let acc := execAccum env config env.subreddits
    let ideas := pipelineIdeas env config acc
    { success := true, ideasGenerated := ideas.length
      subredditsProcessed := acc.subredditsProcessed
      postsAnalyzed := acc.postsAnalyzed
      errors := acc.errors, ideas := ideas }
  | some cut =>
    if cut.ideasAssigned then
      let acc := execAccum env config env.subreddits
      let ideas := pipelineIdeas env config acc
      { success := false, ideasGenerated := ideas.length
        subredditsProcessed := acc.subredditsProcessed
        postsAnalyzed := acc.postsAnalyzed
        errors := acc.errors ++ ["Pipeline timeout"], ideas := ideas }
    else
      let acc := execAccum env config (env.subreddits.take cut.sourcesDone)
      { success := false, ideasGenerated := 0
        subredditsProcessed := acc.subredditsProcessed
        postsAnalyzed := acc.postsAnalyzed
        errors := acc.errors ++ ["Pipeline timeout"], ideas := [] }

-- ===========================================================================
-- Reference definitions used to state claims
-- ===========================================================================

/-- Hit count of one domain vocabulary against a lowercased text. -/
def domainHits (lowText : String) (kws : List String) : Nat :=
  (kws.filter (fun k => jsIncludes lowText k)).length

/-- The aggregation pipeline in the order the specification states it:
stable sort descending first, then first-seen-wins dedup, then truncation. -/
def specAggregate (ideas : List ProductIdea) (maxIdeas : Nat) : List ProductIdea :=
  (deduplicateIdeas (List.insertionSort rankRel ideas)).take maxIdeas

/-- First-seen-wins deduplication stated structurally: keep the head, drop
every later idea with the head's key, recurse. Extensionally equal to the
seen-set filter `deduplicateIdeas`. -/
def keepFirstIdeas : List ProductIdea → List ProductIdea
  | [] => []
  | x :: xs => x :: keepFirstIdeas (xs.filter (fun y => ideaKey y ≠ ideaKey x))
termination_by l => l.length
decreasing_by
  exact Nat.lt_succ_of_le (List.length_filter_le _ _)

/-- The fields of a thread that feed the content fingerprint, with the bar
separator absent from each of them. -/
def pipeFreeThread (post : RedditPost) (comments : List RedditComment) : Prop :=
  '|' ∉ post.title.data ∧ '|' ∉ (post.selftext.getD "").data ∧
    ∀ cm ∈ comments.take 5, '|' ∉ cm.body.data

/-- A raw scoring object missing its `competition` sub-field (or the whole
scoring object missing). -/
def missingCompetition (idea : RawIdea) : Prop :=
  idea.scoring = none ∨ ∃ s, idea.scoring = some s ∧ s.competition = none

-- ===========================================================================
-- Concrete fixtures for counterexamples and witnesses
-- ===========================================================================

def basePost : RedditPost :=
  { id := "p1", title := "placeholder", selftext := none, author := "u1"
    score := 50, num_comments := 3, upvote_ratio := 9/10, created_utc := 0
    permalink := "/r/entrepreneur/comments/p1", url := "https://example.com"
    stickied := false, subreddit := "entrepreneur" }

/-- Post whose processing depends on the clock: at age 1h vs 2h both the
virality score and the post age change. -/
def clockPost : RedditPost := { basePost with score := 10, title := "a clock test post" }

def clockA : Clock := { now := 3600000, month := 0 }
def clockB : Clock := { now := 7200000, month := 0 }

/-- Fingerprint collision pair: distinct titles and bodies, same hash
preimage "a|b|c". -/
def collidePostA : RedditPost := { basePost with title := "a|b", selftext := some "c" }
def collidePostB : RedditPost := { basePost with title := "a", selftext := some "b|c" }

/-- Pipe-free pair differing in the title only, for the amended C3 claim. -/
def plainPostA : RedditPost := { basePost with title := "alpha", selftext := some "body" }
def plainPostB : RedditPost := { basePost with title := "beta", selftext := some "body" }

/-- A post that yields at least one extracted problem. -/
def problemPost : RedditPost :=
  { basePost with title := "I am struggling with invoices" }

def mkTestIdea (name targetAudience : String) (overall : ℚ) : ProductIdea :=
  { name := name, elevatorPitch := "pitch", targetAudience := targetAudience
    painPointSolved := "pain", solutionApproach := "approach"
    category := "Business", reasoning := "r"
    scoring := { overall := overall, painSeverity := 50, marketSize := 50,
                 competition := 50, implementationDifficulty := 50 }
    tags := ["t"], sourceSubreddits := ["entrepreneur"], sourceLinks := ["l"]
    createdAt := 0, isNew := true }

/-- Duplicate-key pair: the low-scored one comes first in input order. -/
def dupIdeaLow : ProductIdea := mkTestIdea "a" "b" 10
def dupIdeaHigh : ProductIdea := mkTestIdea "a" "b" 90

def mkRawIdea (overall competition : Option ℚ) : RawIdea :=
  { name := some "n", elevatorPitch := some "e", targetAudience := some "t"
    painPointSolved := some "p", solutionApproach := some "s"
    category := some "Business", reasoning := some "r"
    scoring := some { overall := overall, painSeverity := some 50,
                      marketSize := some 50, competition := competition,
                      implementationDifficulty := some 50 }
    tags := some ["t"], sourceSubreddits := some ["entrepreneur"]
    sourceLinks := some ["l"] }

/-- Valid raw idea scoring 80 overall. -/
def rawGood : RawIdea := mkRawIdea (some 80) (some 50)
/-- Raw idea with `scoring.competition` missing. -/
def rawNoCompetition : RawIdea := mkRawIdea (some 80) none
/-- Valid raw idea whose overall score 50 sits below the default 65 cutoff. -/
def rawLow : RawIdea := mkRawIdea (some 50) (some 50)

def testGenConfig : GenerationConfig :=
  { maxIdeas := 5, minScore := 65, creativityLevel := "balanced", model := "gpt-5-nano" }

def testPipelineConfig : PipelineConfig :=
  { maxPostsPerSubreddit := 25, maxCommentsPerPost := 10, minPostScore := 5
    minCommentScore := 3, sortTypes := ["hot", "top"]
    generationConfig := testGenConfig, enableDeduplication := true
    maxProcessingTime := 1800000 }

/-- A post with a minimal text payload (no extracted problems), keeping the
pipeline fixtures cheap to evaluate. -/
def tinyPost : RedditPost := { basePost with title := "t" }

/-- A fully successful single-source environment: one post, one valid
generated idea. -/
def happyEnv : PipelineEnv :=
  { subreddits := ["entrepreneur"]
    clock := clockA
    digest := fun s => s
    fetchPosts := fun _ st => if st = "hot" then .ok [tinyPost] else .ok []
    fetchComments := fun _ _ => .ok []
    dupLookup := fun _ => .ok false
    postRaises := fun _ => none
    sourceRaises := fun _ => none
    genResponse := fun _ _ => .ok [rawGood]
    timeoutCut := none }

/-- Environment with no sources at all and no timeout. -/
def emptyEnv : PipelineEnv := { happyEnv with subreddits := [] }

/-- Environment whose wall-clock budget expires immediately. -/
def timedOutEnv : PipelineEnv :=
  { happyEnv with timeoutCut := some { sourcesDone := 0, ideasAssigned := false } }

/-- Environment for error isolation: a raising source before a healthy one,
and a raising post before a healthy one. -/
def raisingPost : RedditPost := { tinyPost with id := "bad1" }

def faultyEnv : PipelineEnv :=
  { happyEnv with
      subreddits := ["badsub", "entrepreneur"]
      fetchPosts := fun _ st => if st = "hot" then .ok [raisingPost, tinyPost] else .ok []
      postRaises := fun p => if p.id = "bad1" then some "kaput" else none
      sourceRaises := fun n => if n = "badsub" then some "boom" else none }

/-- The problem statement `problemPost` extracts (severity and urgency at the
baseline 5, first-person scale indicator, frequency-ordered keywords). -/
def c9Problem : ProblemStatement :=
  { text := "I am struggling with invoices", severity := 5, domain := "general"
    userCount := 100, urgency := 5, keywords := ["struggling", "with", "invoices"] }

-- ===========================================================================
-- Helper lemmas: seen-set dedup filters
-- ===========================================================================

theorem mem_of_mem_dedupIdeasGo {seen : List String} {l : List ProductIdea}
    {i : ProductIdea} (h : i ∈ dedupIdeasGo seen l) : i ∈ l := by
  induction l generalizing seen with
  | nil => simp [dedupIdeasGo] at h
  | cons x rest ih =>
    by_cases hx : ideaKey x ∈ seen
    · simp only [dedupIdeasGo, if_pos hx] at h
      exact List.mem_cons_of_mem x (ih h)
    · simp only [dedupIdeasGo, if_neg hx, List.mem_cons] at h
      rcases h with h | h
      · exact h ▸ List.mem_cons_self x rest
      · exact List.mem_cons_of_mem x (ih h)

theorem key_notin_of_mem_dedupIdeasGo {seen : List String} {l : List ProductIdea}
    {i : ProductIdea} (h : i ∈ dedupIdeasGo seen l) : ideaKey i ∉ seen := by
  induction l generalizing seen with
  | nil => simp [dedupIdeasGo] at h
  | cons x rest ih =>
    by_cases hx : ideaKey x ∈ seen
    · simp only [dedupIdeasGo, if_pos hx] at h
      exact ih h
    · simp only [dedupIdeasGo, if_neg hx, List.mem_cons] at h
      rcases h with h | h
      · exact h ▸ hx
      · intro hmem
        exact ih h (List.mem_cons_of_mem _ hmem)

theorem dedupIdeasGo_pairwise (seen : List String) (l : List ProductIdea) :
    (dedupIdeasGo seen l).Pairwise (fun a b => ideaKey a ≠ ideaKey b) := by
  induction l generalizing seen with
  | nil => simp [dedupIdeasGo]
  | cons x rest ih =>
    by_cases hx : ideaKey x ∈ seen
    · simpa only [dedupIdeasGo, if_pos hx] using ih seen
    · simp only [dedupIdeasGo, if_neg hx]
      refine List.Pairwise.cons ?_ (ih (ideaKey x :: seen))
      intro b hb heq
      exact key_notin_of_mem_dedupIdeasGo hb (heq ▸ List.mem_cons_self _ _)

theorem mem_of_mem_dedupProblemsGo {seen : List String} {l : List ProblemStatement}
    {p : ProblemStatement} (h : p ∈ dedupProblemsGo seen l) : p ∈ l := by
  induction l generalizing seen with
  | nil => simp [dedupProblemsGo] at h
  | cons x rest ih =>
    by_cases hx : problemKey x ∈ seen
    · simp only [dedupProblemsGo, if_pos hx] at h
      exact List.mem_cons_of_mem x (ih h)
    · simp only [dedupProblemsGo, if_neg hx, List.mem_cons] at h
      rcases h with h | h
      · exact h ▸ List.mem_cons_self x rest
      · exact List.mem_cons_of_mem x (ih h)

-- ===========================================================================
-- Helper lemmas: rank ordering and merge membership
-- ===========================================================================

theorem mem_of_mem_mergeIdeas {l : List ProductIdea} {n : Nat} {i : ProductIdea}
    (h : i ∈ mergeIdeas l n) : i ∈ l := by
  have h1 : i ∈ List.insertionSort rankRel (deduplicateIdeas l) :=
    (List.take_sublist _ _).mem h
  have h2 : i ∈ deduplicateIdeas l :=
    (List.perm_insertionSort rankRel (deduplicateIdeas l)).mem_iff.mp h1
  exact mem_of_mem_dedupIdeasGo h2

-- ===========================================================================
-- Helper lemmas: seen-set dedup equals structural first-seen dedup
-- ===========================================================================

theorem keepFirstIdeas_nil : keepFirstIdeas [] = [] := by
  rw [keepFirstIdeas.eq_def]

theorem keepFirstIdeas_cons (x : ProductIdea) (xs : List ProductIdea) :
    keepFirstIdeas (x :: xs) =
      x :: keepFirstIdeas (xs.filter (fun y => ideaKey y ≠ ideaKey x)) := by
  rw [keepFirstIdeas.eq_def]

theorem dedupIdeasGo_eq_keepFirst (l : List ProductIdea) :
    ∀ seen, dedupIdeasGo seen l =
      keepFirstIdeas (l.filter (fun i => decide (ideaKey i ∉ seen))) := by
  induction l with
  | nil => intro seen; simp [dedupIdeasGo, keepFirstIdeas_nil]
  | cons x rest ih =>
    intro seen
    by_cases hx : ideaKey x ∈ seen
    · simp only [dedupIdeasGo, if_pos hx]
      rw [ih seen]
      congr 1
      simp [List.filter_cons, hx]
    · have hfc : (x :: rest).filter (fun i => decide (ideaKey i ∉ seen)) =
          x :: rest.filter (fun i => decide (ideaKey i ∉ seen)) := by
        simp [List.filter_cons, hx]
      simp only [dedupIdeasGo, if_neg hx]
      rw [hfc, keepFirstIdeas_cons, ih (ideaKey x :: seen), List.filter_filter]
      refine congrArg (fun t => x :: keepFirstIdeas t) (List.filter_congr ?_)
      intro y _
      simp [List.mem_cons, not_or]

theorem deduplicateIdeas_eq_keepFirst (l : List ProductIdea) :
    deduplicateIdeas l = keepFirstIdeas l := by
  rw [deduplicateIdeas, dedupIdeasGo_eq_keepFirst l []]
  congr 1
  simp

-- ===========================================================================
-- Helper lemmas: injectivity of bar-joining on bar-free fields
-- ===========================================================================

theorem append_bar_inj : ∀ (a1 : List Char) {b1 a2 b2 : List Char},
    '|' ∉ a1 → '|' ∉ a2 → a1 ++ '|' :: b1 = a2 ++ '|' :: b2 →
    a1 = a2 ∧ b1 = b2 := by
  intro a1
  induction a1 with
  | nil =>
    intro b1 a2 b2 _ h2 heq
    cases a2 with
    | nil => simpa using heq
    | cons d u =>
      exfalso
      simp only [List.nil_append, List.cons_append, List.cons.injEq] at heq
      exact h2 (heq.1 ▸ List.mem_cons_self _ _)
  | cons c t ih =>
    intro b1 a2 b2 h1 h2 heq
    cases a2 with
    | nil =>
      exfalso
      simp only [List.nil_append, List.cons_append, List.cons.injEq] at heq
      exact h1 (heq.1 ▸ List.mem_cons_self _ _)
    | cons d u =>
      simp only [List.cons_append, List.cons.injEq] at heq
      obtain ⟨hcd, hrest⟩ := heq
      have h1' : '|' ∉ t := fun hm => h1 (List.mem_cons_of_mem _ hm)
      have h2' : '|' ∉ u := fun hm => h2 (List.mem_cons_of_mem _ hm)
      obtain ⟨hau, hb⟩ := ih h1' h2' hrest
      exact ⟨by rw [hcd, hau], hb⟩

theorem bar_mem_join_cons (s : String) (t : String) :
    '|' ∈ (s ++ "|" ++ t).data := by
  simp [String.data_append]

theorem joinSep_bar_data (s : String) (t : String) (rest : List String) :
    (joinSep "|" (s :: t :: rest)).data =
      s.data ++ '|' :: (joinSep "|" (t :: rest)).data := by
  show (s ++ "|" ++ joinSep "|" (t :: rest)).data = _
  simp [String.data_append]

theorem joinSep_bar_inj : ∀ (l1 l2 : List String), l1 ≠ [] → l2 ≠ [] →
    (∀ s ∈ l1, '|' ∉ s.data) → (∀ s ∈ l2, '|' ∉ s.data) →
    joinSep "|" l1 = joinSep "|" l2 → l1 = l2 := by
  intro l1
  induction l1 with
  | nil => intro l2 h1 _ _ _ _; exact absurd rfl h1
  | cons a t1 ih =>
    intro l2 _ h2 hf1 hf2 heq
    cases l2 with
    | nil => exact absurd rfl h2
    | cons b t2 =>
      cases t1 with
      | nil =>
        cases t2 with
        | nil =>
          have : a = b := heq
          rw [this]
        | cons c u2 =>
          exfalso
          have hd : a.data = (b ++ "|" ++ joinSep "|" (c :: u2)).data :=
            congrArg String.data heq
          exact hf1 a (List.mem_cons_self _ _) (hd ▸ bar_mem_join_cons b _)
      | cons c u1 =>
        cases t2 with
        | nil =>
          exfalso
          have hd : b.data = (a ++ "|" ++ joinSep "|" (c :: u1)).data :=
            congrArg String.data heq.symm
          exact hf2 b (List.mem_cons_self _ _) (hd ▸ bar_mem_join_cons a _)
        | cons d u2 =>
          have hd : a.data ++ '|' :: (joinSep "|" (c :: u1)).data =
              b.data ++ '|' :: (joinSep "|" (d :: u2)).data := by
            rw [← joinSep_bar_data, ← joinSep_bar_data, heq]
          obtain ⟨hab, hrest⟩ :=
            append_bar_inj a.data (hf1 a (List.mem_cons_self _ _))
              (hf2 b (List.mem_cons_self _ _)) hd
          have hab' : a = b := String.ext hab
          have hrest' : joinSep "|" (c :: u1) = joinSep "|" (d :: u2) :=
            String.ext hrest
          have ht : c :: u1 = d :: u2 :=
            ih (d :: u2) (List.cons_ne_nil _ _) (List.cons_ne_nil _ _)
              (fun s hs => hf1 s (List.mem_cons_of_mem _ hs))
              (fun s hs => hf2 s (List.mem_cons_of_mem _ hs)) hrest'
          rw [hab', ht]

-- ===========================================================================
-- Helper lemmas: response parsing
-- ===========================================================================

theorem overall_ideaOfRaw (now : Int) (r : RawIdea) :
    (ideaOfRaw now r).scoring.overall = overallOf r := by
  cases h : r.scoring with
  | none => simp [ideaOfRaw, overallOf, h]
  | some s => simp [ideaOfRaw, overallOf, h]

theorem mem_parseIdeas {config : GenerationConfig} {now : Int}
    {raws : List RawIdea} {i : ProductIdea} (h : i ∈ parseIdeas config now raws) :
    ∃ r ∈ raws, validateIdea r = true ∧ config.minScore ≤ overallOf r ∧
      i = ideaOfRaw now r := by
  simp only [parseIdeas, List.mem_map] at h
  obtain ⟨r, hr, hi⟩ := h
  have hr2 := List.mem_of_mem_take hr
  have hr3 := List.mem_filter.mp hr2
  have hr4 := List.mem_filter.mp hr3.1
  exact ⟨r, hr4.1, hr4.2, by simpa using hr3.2, hi.symm⟩

theorem parseIdeas_overall {config : GenerationConfig} {now : Int}
    {raws : List RawIdea} {i : ProductIdea} (h : i ∈ parseIdeas config now raws) :
    config.minScore ≤ i.scoring.overall := by
  obtain ⟨r, _, _, hs, hi⟩ := mem_parseIdeas h
  rw [hi, overall_ideaOfRaw]
  exact hs

theorem validateIdea_missing_competition {r : RawIdea}
    (h : missingCompetition r) : validateIdea r = false := by
  rcases h with h | ⟨s, hs, hc⟩
  · simp [validateIdea, h, scoringOk]
  · simp [validateIdea, hs, scoringOk, hc, scoreOk]

theorem parseIdeas_complete {config : GenerationConfig} {now : Int}
    {raws : List RawIdea}
    (hlen : ((raws.filter validateIdea).filter
        (fun r => decide (config.minScore ≤ overallOf r))).length ≤ config.maxIdeas)
    {r : RawIdea} (hr : r ∈ raws) (hv : validateIdea r = true)
    (hs : config.minScore ≤ overallOf r) :
    ideaOfRaw now r ∈ parseIdeas config now raws := by
  have hmem : r ∈ (raws.filter validateIdea).filter
      (fun r => decide (config.minScore ≤ overallOf r)) :=
    List.mem_filter.mpr ⟨List.mem_filter.mpr ⟨hr, hv⟩, by simpa using hs⟩
  have htake : ((raws.filter validateIdea).filter
      (fun r => decide (config.minScore ≤ overallOf r))).take config.maxIdeas =
      (raws.filter validateIdea).filter
        (fun r => decide (config.minScore ≤ overallOf r)) :=
    List.take_of_length_le hlen
  simp only [parseIdeas, htake, List.mem_map]
  exact ⟨r, hmem, rfl⟩

-- ===========================================================================
-- Helper lemmas: problem statement bounds
-- ===========================================================================

theorem calculateSeverity_bounds (text : String) :
    1 ≤ calculateSeverity text ∧ calculateSeverity text ≤ 10 :=
  ⟨le_max_left 1 _, max_le (by norm_num) (min_le_left 10 _)⟩

theorem calculateUrgency_bounds (text : String) :
    1 ≤ calculateUrgency text ∧ calculateUrgency text ≤ 10 :=
  ⟨le_max_left 1 _, max_le (by norm_num) (min_le_left 10 _)⟩

theorem createProblemStatement_bounds {text : String} {source : SourceType}
    {p : ProblemStatement} (h : createProblemStatement text source = some p) :
    1 ≤ p.severity ∧ p.severity ≤ 10 ∧ 1 ≤ p.urgency ∧ p.urgency ≤ 10 := by
  unfold createProblemStatement at h
  split at h
  · exact absurd h (by simp)
  · have hp := Option.some.inj h
    rw [← hp]
    exact ⟨(calculateSeverity_bounds text).1, (calculateSeverity_bounds text).2,
      (calculateUrgency_bounds text).1, (calculateUrgency_bounds text).2⟩

theorem mem_extractProblemsFromText {text : String} {source : SourceType}
    {p : ProblemStatement} (h : p ∈ extractProblemsFromText text source) :
    ∃ s, createProblemStatement s source = some p := by
  simp only [extractProblemsFromText, List.mem_filterMap] at h
  obtain ⟨s, _, hs⟩ := h
  by_cases hc : containsProblemIndicators s = true
  · rw [if_pos hc] at hs
    exact ⟨s, hs⟩
  · rw [if_neg hc] at hs
    cases hs

theorem extractProblems_bounds {post : RedditPost} {comments : List RedditComment}
    {p : ProblemStatement} (h : p ∈ extractProblems post comments) :
    1 ≤ p.severity ∧ p.severity ≤ 10 ∧ 1 ≤ p.urgency ∧ p.urgency ≤ 10 := by
  unfold extractProblems deduplicateProblems at h
  have h2 := mem_of_mem_dedupProblemsGo h
  rcases List.mem_append.mp h2 with h3 | h3
  · obtain ⟨s, hs⟩ := mem_extractProblemsFromText h3
    exact createProblemStatement_bounds hs
  · obtain ⟨c, _, hc⟩ := List.mem_flatMap.mp h3
    obtain ⟨s, hs⟩ := mem_extractProblemsFromText hc
    exact createProblemStatement_bounds hs

theorem calculateQualityScore_overall_bounds (post : RedditPost)
    (problems : List ProblemStatement) :
    0 ≤ (calculateQualityScore post problems).overall ∧
      (calculateQualityScore post problems).overall ≤ 100 :=
  ⟨le_max_left 0 _, max_le (by norm_num) (min_le_left 100 _)⟩

-- ===========================================================================
-- Helper lemmas: pipeline accumulation
-- ===========================================================================

theorem execAccum_errors (env : PipelineEnv) (config : PipelineConfig)
    (subreddits : List String) :
    (execAccum env config subreddits).errors =
      subreddits.flatMap (fun n => (sourceStep env config n).errors) := by
  simp [execAccum, List.flatMap_map, Function.comp]

theorem sourceStep_errors_raise {env : PipelineEnv} {config : PipelineConfig}
    {name msg : String} (h : env.sourceRaises name = some msg) :
    (sourceStep env config name).errors = ["Subreddit " ++ name ++ ": " ++ msg] := by
  simp [sourceStep, h]

theorem sourceStep_errors_ok {env : PipelineEnv} {config : PipelineConfig}
    {name : String} (h : env.sourceRaises name = none) :
    (sourceStep env config name).errors = (processSubreddit env config name).errors := by
  simp [sourceStep, h]

theorem processPost_errors_raise {env : PipelineEnv} {config : PipelineConfig}
    {subreddit : String} {post : RedditPost} {msg : String}
    (hq : postQualifies env config post = true)
    (hr : env.postRaises post = some msg) :
    (processPost env config subreddit post).errors =
      ["Post " ++ post.id ++ ": " ++ msg] := by
  simp [processPost, hq, hr]

theorem processSubreddit_errors (env : PipelineEnv) (config : PipelineConfig)
    (subreddit : String) :
    (processSubreddit env config subreddit).errors =
      (sourcePosts env config subreddit).flatMap
        (fun p => (processPost env config subreddit p).errors) := by
  simp [processSubreddit, List.flatMap_map]

theorem execAccum_subreddits (env : PipelineEnv) (config : PipelineConfig)
    (subreddits : List String) :
    (execAccum env config subreddits).subredditsProcessed =
      subreddits.countP (fun n => (env.sourceRaises n).isNone) := by
  induction subreddits with
  | nil => simp [execAccum]
  | cons n rest ih =>
    simp only [execAccum, List.map_cons, List.map_map, List.sum_cons] at ih ⊢
    rw [List.countP_cons]
    cases h : env.sourceRaises n with
    | none => simp [sourceStep, h, ih, Nat.add_comm]
    | some msg => simp [sourceStep, h, ih]

theorem processPost_count (env : PipelineEnv) (config : PipelineConfig)
    (subreddit : String) (post : RedditPost) :
    (processPost env config subreddit post).postsProcessed =
      (if postQualifies env config post ∧ (env.postRaises post).isNone
       then 1 else 0) := by
  by_cases hq : postQualifies env config post = true
  · cases hr : env.postRaises post with
    | none => simp [processPost, hq, hr]
    | some m => simp [processPost, hq, hr]
  · simp [processPost, hq]

theorem processSubreddit_count (env : PipelineEnv) (config : PipelineConfig)
    (subreddit : String) :
    (processSubreddit env config subreddit).postsProcessed =
      ((sourcePosts env config subreddit).filter
        (fun p => postQualifies env config p && (env.postRaises p).isNone)).length := by
  simp only [processSubreddit, List.map_map]
  rw [← List.countP_eq_length_filter]
  induction sourcePosts env config subreddit with
  | nil => simp
  | cons p rest ih =>
    rw [List.map_cons, List.sum_cons, List.countP_cons, Function.comp_apply,
      processPost_count, ih]
    by_cases hq : postQualifies env config p = true
    · cases hr : env.postRaises p with
      | none => simp [hq, hr, Nat.add_comm]
      | some m => simp [hq, hr]
    · simp [hq]

theorem execAccum_posts (env : PipelineEnv) (config : PipelineConfig)
    (subreddits : List String) :
    (execAccum env config subreddits).postsAnalyzed =
      (subreddits.map (fun n =>
        if (env.sourceRaises n).isNone then
          ((sourcePosts env config n).filter
            (fun p => postQualifies env config p && (env.postRaises p).isNone)).length
        else 0)).sum := by
  simp only [execAccum, List.map_map]
  refine congrArg List.sum (List.map_congr_left ?_)
  intro n _
  cases h : env.sourceRaises n with
  | none => simp [sourceStep, h, processSubreddit_count]
  | some msg => simp [sourceStep, h]

-- ===========================================================================
-- Claim C1
-- ===========================================================================

/-- C1: for every input idea list and every `maxIdeas` bound, the
orchestrator's merge step (`deduplicateIdeas` followed by `rankIdeas`)
returns at most `maxIdeas` ideas, sorted non-increasing by
`scoring.overall`, and no two returned ideas share the lower-cased
(name, targetAudience) composite key. -/
theorem mergeIdeas_bounded_sorted_distinct (ideas : List ProductIdea) (maxIdeas : Nat) :
    (mergeIdeas ideas maxIdeas).length ≤ maxIdeas ∧
    (mergeIdeas ideas maxIdeas).Pairwise
      (fun a b => b.scoring.overall ≤ a.scoring.overall) ∧
    (mergeIdeas ideas maxIdeas).Pairwise (fun a b => ideaKey a ≠ ideaKey b) := by
  refine ⟨?_, ?_, ?_⟩
  · rw [mergeIdeas, rankIdeas]
    calc (List.take maxIdeas (List.insertionSort rankRel (deduplicateIdeas ideas))).length
        = min maxIdeas (List.insertionSort rankRel (deduplicateIdeas ideas)).length :=
          List.length_take ..
      _ ≤ maxIdeas := min_le_left ..
  · have hs : (List.insertionSort rankRel (deduplicateIdeas ideas)).Pairwise rankRel :=
      List.sorted_insertionSort rankRel (deduplicateIdeas ideas)
    exact List.Pairwise.sublist (List.take_sublist _ _) hs
  · have hperm := List.perm_insertionSort rankRel (deduplicateIdeas ideas)
    have hsym : ∀ {x y : ProductIdea}, ideaKey x ≠ ideaKey y → ideaKey y ≠ ideaKey x :=
      fun h => h.symm
    have hd : (List.insertionSort rankRel (deduplicateIdeas ideas)).Pairwise
        (fun a b => ideaKey a ≠ ideaKey b) :=
      (hperm.pairwise_iff hsym).mpr (dedupIdeasGo_pairwise [] ideas)
    exact List.Pairwise.sublist (List.take_sublist _ _) hd

-- ===========================================================================
-- Claim C2
-- ===========================================================================

/-- C2 counterexample: two runs of `processContent` on the same thread at
different wall-clock readings differ in `context` (post age, trending
status, virality), not only in the processing timestamp fields — the
engagement and temporal analyses also read the clock. -/
theorem processContent_clock_dependent :
    (processContent (fun s => s) clockA clockPost []).context ≠
      (processContent (fun s => s) clockB clockPost []).context ∧
    (processContent (fun s => s) clockA clockPost
        []).context.engagement.viralityScore ≠
      (processContent (fun s => s) clockB clockPost
        []).context.engagement.viralityScore ∧
    (processContent (fun s => s) clockA clockPost []).context.temporalContext ≠
      (processContent (fun s => s) clockB clockPost []).context.temporalContext := by
  with_unfolding_all decide

/-- C2 amended: `processContent` is deterministic given identical input and
an identical clock reading; across different clock readings every output
component except the clock-derived ones (`engagement.viralityScore`,
`temporalContext`, and the processing timestamps) is identical — in
particular the hash, the problems, the quality score, the sentiment and the
source identifiers never depend on the clock. -/
theorem processContent_clock_invariant_components (digest : String → String)
    (clk1 clk2 : Clock) (post : RedditPost) (comments : List RedditComment) :
    (processContent digest clk1 post comments).contentHash =
        (processContent digest clk2 post comments).contentHash ∧
    (processContent digest clk1 post comments).problems =
        (processContent digest clk2 post comments).problems ∧
    (processContent digest clk1 post comments).quality =
        (processContent digest clk2 post comments).quality ∧
    (processContent digest clk1 post comments).context.subreddit =
        (processContent digest clk2 post comments).context.subreddit ∧
    (processContent digest clk1 post comments).context.category =
        (processContent digest clk2 post comments).context.category ∧
    (processContent digest clk1 post comments).context.userSentiment =
        (processContent digest clk2 post comments).context.userSentiment ∧
    (processContent digest clk1 post comments).context.sourcePost =
        (processContent digest clk2 post comments).context.sourcePost ∧
    (processContent digest clk1 post comments).context.engagement.score =
        (processContent digest clk2 post comments).context.engagement.score ∧
    (processContent digest clk1 post comments).context.engagement.commentCount =
        (processContent digest clk2 post comments).context.engagement.commentCount ∧
    (processContent digest clk1 post comments).context.engagement.upvote_ratio =
        (processContent digest clk2 post comments).context.engagement.upvote_ratio ∧
    (processContent digest clk1 post comments).context.engagement.controversiality =
        (processContent digest clk2 post comments).context.engagement.controversiality ∧
    (processContent digest clk1 post comments).metadata.processingVersion =
        (processContent digest clk2 post comments).metadata.processingVersion ∧
    (processContent digest clk1 post comments).metadata.sourceType =
        (processContent digest clk2 post comments).metadata.sourceType :=
  ⟨rfl, rfl, rfl, rfl, rfl, rfl, rfl, rfl, rfl, rfl, rfl, rfl, rfl⟩

-- ===========================================================================
-- Claim C3
-- ===========================================================================

/-- C3 counterexample: two threads differing in both title and body share
the same hash preimage "a|b|c" (the bar separator is injectable), so
`generateContentHash` collides on them for every digest — here exhibited
with the identity digest. -/
theorem generateContentHash_collision :
    generateContentHash (fun s => s) collidePostA [] =
      generateContentHash (fun s => s) collidePostB [] ∧
    collidePostA.title ≠ collidePostB.title ∧
    collidePostA.selftext ≠ collidePostB.selftext := by
  with_unfolding_all decide

/-- C3 amended: `generateContentHash` is deterministic, and when the digest
is injective and none of title, body, or the first five comment bodies
contains the bar separator, two threads hash equal exactly when those
fields coincide; with a bar inside a field (or a digest collision) distinct
threads can collide. -/
theorem generateContentHash_eq_iff (digest : String → String)
    (hinj : Function.Injective digest)
    (p1 p2 : RedditPost) (c1 c2 : List RedditComment)
    (h1 : pipeFreeThread p1 c1) (h2 : pipeFreeThread p2 c2) :
    generateContentHash digest p1 c1 = generateContentHash digest p2 c2 ↔
      (p1.title = p2.title ∧ p1.selftext.getD "" = p2.selftext.getD "" ∧
        (c1.take 5).map (fun c => c.body) = (c2.take 5).map (fun c => c.body)) := by
  constructor
  · intro heq
    have hh : hashInput p1 c1 = hashInput p2 c2 := hinj heq
    obtain ⟨ht1, hb1, hc1⟩ := h1
    obtain ⟨ht2, hb2, hc2⟩ := h2
    have hl := joinSep_bar_inj
      ([p1.title, p1.selftext.getD ""] ++ (c1.take 5).map (fun c => c.body))
      ([p2.title, p2.selftext.getD ""] ++ (c2.take 5).map (fun c => c.body))
      (by simp) (by simp) ?_ ?_ hh
    · have := List.cons.inj hl
      have h2' := List.cons.inj this.2
      exact ⟨this.1, h2'.1, h2'.2⟩
    · intro s hs
      rcases List.mem_append.mp hs with hs | hs
      · rcases List.mem_cons.mp hs with hs | hs
        · exact hs ▸ ht1
        · rcases List.mem_cons.mp hs with hs | hs
          · exact hs ▸ hb1
          · simp at hs
      · obtain ⟨cm, hcm, hbody⟩ := List.mem_map.mp hs
        exact hbody ▸ hc1 cm hcm
    · intro s hs
      rcases List.mem_append.mp hs with hs | hs
      · rcases List.mem_cons.mp hs with hs | hs
        · exact hs ▸ ht2
        · rcases List.mem_cons.mp hs with hs | hs
          · exact hs ▸ hb2
          · simp at hs
      · obtain ⟨cm, hcm, hbody⟩ := List.mem_map.mp hs
        exact hbody ▸ hc2 cm hcm
  · rintro ⟨ht, hb, hm⟩
    show digest (hashInput p1 c1) = digest (hashInput p2 c2)
    rw [hashInput, hashInput, ht, hb, hm]

/-- C3 witness: the amended equivalence applied to a concrete bar-free pair
differing in the title, with the identity digest. -/
theorem generateContentHash_eq_iff_witness :
    generateContentHash (fun s => s) plainPostA [] =
        generateContentHash (fun s => s) plainPostB [] ↔
      (plainPostA.title = plainPostB.title ∧
        plainPostA.selftext.getD "" = plainPostB.selftext.getD "" ∧
        (([] : List RedditComment).take 5).map (fun c => c.body) =
          (([] : List RedditComment).take 5).map (fun c => c.body)) :=
  generateContentHash_eq_iff (fun s => s) Function.injective_id plainPostA plainPostB [] []
    ⟨by decide, by decide, by intro cm hcm; simp at hcm⟩
    ⟨by decide, by decide, by intro cm hcm; simp at hcm⟩

-- ===========================================================================
-- Claim C4
-- ===========================================================================

/-- C4 counterexample: on two ideas with the same composite key, the code
(dedup before sort) keeps the first-listed low-scoring duplicate, while the
spec's order (stable sort desc, then first-seen dedup, then truncate) keeps
the higher-scoring one, so the two pipelines disagree. -/
theorem mergeIdeas_ne_specAggregate :
    mergeIdeas [dupIdeaLow, dupIdeaHigh] 5 = [dupIdeaLow] ∧
    specAggregate [dupIdeaLow, dupIdeaHigh] 5 = [dupIdeaHigh] ∧
    mergeIdeas [dupIdeaLow, dupIdeaHigh] 5 ≠ specAggregate [dupIdeaLow, dupIdeaHigh] 5 := by
  with_unfolding_all decide

/-- C4 amended: the aggregator equals the pipeline that first applies
first-seen-wins dedup in input order, then stable-sorts by overall
descending, then truncates — so among duplicates the first-listed one
survives, not necessarily the higher-scored one. -/
theorem mergeIdeas_eq_dedup_first_pipeline (ideas : List ProductIdea) (maxIdeas : Nat) :
    mergeIdeas ideas maxIdeas =
      (List.insertionSort rankRel (keepFirstIdeas ideas)).take maxIdeas := by
  rw [mergeIdeas, rankIdeas, deduplicateIdeas_eq_keepFirst]

-- ===========================================================================
-- Claim C5
-- ===========================================================================

/-- C5 counterexample: with no timeout and no sources, the run succeeds even
though the generation stage is never attempted (generation only runs when at
least one processed content item exists), so "success exactly when the
timeout was avoided and the generation stage was attempted" fails. -/
theorem runPipeline_success_without_generation :
    emptyEnv.timeoutCut = none ∧
    (runPipeline emptyEnv testPipelineConfig).success = true ∧
    generationAttempted emptyEnv testPipelineConfig = false := by
  with_unfolding_all decide

/-- C5 amended: `runPipeline` always yields a `PipelineResult`; when the
wall-clock budget preempts the run the result is unsuccessful and carries a
"Pipeline timeout" error entry, and success holds exactly when the timeout
was avoided — whether or not the generation stage was reached. -/
theorem runPipeline_timeout_success (env : PipelineEnv) (config : PipelineConfig) :
    (env.timeoutCut.isSome = true →
      (runPipeline env config).success = false ∧
        "Pipeline timeout" ∈ (runPipeline env config).errors) ∧
    (env.timeoutCut = none → (runPipeline env config).success = true) := by
  constructor
  · intro hsome
    unfold runPipeline
    cases htc : env.timeoutCut with
    | none => rw [htc] at hsome; cases hsome
    | some cut =>
      cases hia : cut.ideasAssigned <;> simp [hia]
  · intro hnone
    unfold runPipeline
    simp only [hnone]

/-- C5 witness: the timeout conjunct applied to the immediately-expired
environment. -/
theorem runPipeline_timeout_success_witness :
    (runPipeline timedOutEnv testPipelineConfig).success = false ∧
      "Pipeline timeout" ∈ (runPipeline timedOutEnv testPipelineConfig).errors :=
  (runPipeline_timeout_success timedOutEnv testPipelineConfig).1 rfl

-- ===========================================================================
-- Claim C6
-- ===========================================================================

/-- C6: in a run that is not preempted by the timeout, every per-source
failure is recorded as a "Subreddit name: msg" error while all healthy
sources are still processed, and every per-thread failure is recorded as a
"Post id: msg" error while all other qualifying threads are still processed
— counted exactly by `subredditsProcessed` and `postsAnalyzed`. -/
theorem runPipeline_error_isolation (env : PipelineEnv) (config : PipelineConfig)
    (hto : env.timeoutCut = none) :
    (∀ name ∈ env.subreddits, ∀ msg, env.sourceRaises name = some msg →
        ("Subreddit " ++ name ++ ": " ++ msg) ∈ (runPipeline env config).errors) ∧
    ((runPipeline env config).subredditsProcessed =
        env.subreddits.countP (fun n => (env.sourceRaises n).isNone)) ∧
    (∀ name ∈ env.subreddits, env.sourceRaises name = none →
        ∀ post ∈ sourcePosts env config name, postQualifies env config post = true →
          ∀ msg, env.postRaises post = some msg →
            ("Post " ++ post.id ++ ": " ++ msg) ∈ (runPipeline env config).errors) ∧
    ((runPipeline env config).postsAnalyzed =
        (env.subreddits.map (fun n =>
          if (env.sourceRaises n).isNone then
            ((sourcePosts env config n).filter
              (fun p => postQualifies env config p && (env.postRaises p).isNone)).length
          else 0)).sum) := by
  have hrun : runPipeline env config =
      { success := true
        ideasGenerated := (pipelineIdeas env config (execAccum env config env.subreddits)).length
        subredditsProcessed := (execAccum env config env.subreddits).subredditsProcessed
        postsAnalyzed := (execAccum env config env.subreddits).postsAnalyzed
        errors := (execAccum env config env.subreddits).errors
        ideas := pipelineIdeas env config (execAccum env config env.subreddits) } := by
    unfold runPipeline
    simp only [hto]
  refine ⟨?_, ?_, ?_, ?_⟩
  · intro name hn msg hraise
    rw [hrun]
    show _ ∈ (execAccum env config env.subreddits).errors
    rw [execAccum_errors]
    exact List.mem_flatMap.mpr ⟨name, hn, by
      rw [sourceStep_errors_raise hraise]; exact List.mem_singleton.mpr rfl⟩
  · rw [hrun]
    exact execAccum_subreddits env config env.subreddits
  · intro name hn hok post hp hq msg hraise
    rw [hrun]
    show _ ∈ (execAccum env config env.subreddits).errors
    rw [execAccum_errors]
    refine List.mem_flatMap.mpr ⟨name, hn, ?_⟩
    rw [sourceStep_errors_ok hok, processSubreddit_errors]
    exact List.mem_flatMap.mpr ⟨post, hp, by
      rw [processPost_errors_raise hq hraise]; exact List.mem_singleton.mpr rfl⟩
  · rw [hrun]
    exact execAccum_posts env config env.subreddits

/-- C6 witness: in the faulty environment the raising source and the raising
thread each leave exactly their error entry while the healthy source and the
healthy thread are still processed. -/
theorem runPipeline_error_isolation_witness :
    ("Subreddit " ++ "badsub" ++ ": " ++ "boom") ∈
        (runPipeline faultyEnv testPipelineConfig).errors ∧
    ("Post " ++ "bad1" ++ ": " ++ "kaput") ∈
        (runPipeline faultyEnv testPipelineConfig).errors ∧
    (runPipeline faultyEnv testPipelineConfig).subredditsProcessed =
      faultyEnv.subreddits.countP (fun n => (faultyEnv.sourceRaises n).isNone) :=
  ⟨(runPipeline_error_isolation faultyEnv testPipelineConfig rfl).1 "badsub"
      (by decide) "boom" (by with_unfolding_all decide),
   (runPipeline_error_isolation faultyEnv testPipelineConfig rfl).2.2.1 "entrepreneur"
      (by decide) (by with_unfolding_all decide) raisingPost
      (by with_unfolding_all decide) (by with_unfolding_all decide) "kaput"
      (by with_unfolding_all decide),
   (runPipeline_error_isolation faultyEnv testPipelineConfig rfl).2.1⟩

-- ===========================================================================
-- Claim C7
-- ===========================================================================

/-- C7 helper: the early-return loop of `identifyDomain` is the first-match
search over the entry list. -/
theorem identifyDomainGo_eq_find (lowText : String) :
    ∀ l : List (String × List String),
      identifyDomainGo lowText l =
        (((l.find? (fun e => decide (2 ≤ domainHits lowText e.2))).map
          (fun e => e.1)).getD "general") := by
  intro l
  induction l with
  | nil => rfl
  | cons e rest ih =>
    simp only [identifyDomainGo]
    by_cases h : 2 ≤ (List.filter (fun k => jsIncludes lowText k) e.2).length
    · rw [if_pos h, List.find?_cons_of_pos _ (by simpa [domainHits] using h)]
      rfl
    · rw [if_neg h, List.find?_cons_of_neg _ (by simpa [domainHits] using h), ih]

/-- C7: `identifyDomain` returns the first domain, in the fixed enumeration
order business, tech, productivity, health, finance, education, whose
vocabulary scores at least 2 substring hits in the lower-cased text, and
"general" when no domain reaches 2 hits — nothing beyond this threshold
check influences the choice. -/
theorem identifyDomain_first_threshold (text : String) :
    identifyDomain text =
      (((DOMAIN_KEYWORDS.find? (fun e =>
          decide (2 ≤ domainHits text.toLower e.2))).map (fun e => e.1)).getD
        "general") ∧
    DOMAIN_KEYWORDS.map (fun e => e.1) =
      ["business", "tech", "productivity", "health", "finance", "education"] :=
  ⟨identifyDomainGo_eq_find text.toLower DOMAIN_KEYWORDS, rfl⟩

-- ===========================================================================
-- Claim C8
-- ===========================================================================

/-- C8 counterexample: a response with one idea missing
`scoring.competition` and one fully valid idea whose overall score sits
below `config.minScore` yields an empty output — the remaining valid idea is
not returned, because the parser also applies the (unclaimed) minScore
filter. -/
theorem parseIdeas_drops_valid_below_minScore :
    validateIdea rawLow = true ∧
    parseIdeas testGenConfig 0 [rawNoCompetition, rawLow] = [] := by
  with_unfolding_all decide

/-- C8 amended: an idea missing any scoring sub-field or with a sub-field
outside [0, 100] is dropped before deduplication and ranking (every returned
idea descends from a raw idea passing `validateIdea`, and an idea missing
`scoring.competition` never passes), while the remaining valid ideas are
returned provided they also meet `config.minScore` and fit within
`config.maxIdeas`. -/
theorem parseIdeas_validation (config : GenerationConfig) (now : Int)
    (raws : List RawIdea) :
    (∀ i ∈ parseIdeas config now raws,
        ∃ r ∈ raws, validateIdea r = true ∧ config.minScore ≤ overallOf r ∧
          i = ideaOfRaw now r) ∧
    (∀ r : RawIdea, missingCompetition r → validateIdea r = false) ∧
    (((raws.filter validateIdea).filter
        (fun r => decide (config.minScore ≤ overallOf r))).length ≤ config.maxIdeas →
      ∀ r ∈ raws, validateIdea r = true → config.minScore ≤ overallOf r →
        ideaOfRaw now r ∈ parseIdeas config now raws) :=
  ⟨fun _ hi => mem_parseIdeas hi,
   fun _ hr => validateIdea_missing_competition hr,
   fun hlen _ hr hv hs => parseIdeas_complete hlen hr hv hs⟩

/-- C8 witness: in the scenario-C response the idea missing
`scoring.competition` fails validation and the remaining valid
high-scoring idea is returned. -/
theorem parseIdeas_validation_witness :
    validateIdea rawNoCompetition = false ∧
    ideaOfRaw 0 rawGood ∈ parseIdeas testGenConfig 0 [rawNoCompetition, rawGood] :=
  ⟨(parseIdeas_validation testGenConfig 0 [rawNoCompetition, rawGood]).2.1
      rawNoCompetition (Or.inr ⟨_, rfl, rfl⟩),
   (parseIdeas_validation testGenConfig 0 [rawNoCompetition, rawGood]).2.2
      (by with_unfolding_all decide) rawGood (by decide)
      (by with_unfolding_all decide) (by with_unfolding_all decide)⟩

-- ===========================================================================
-- Claim C9
-- ===========================================================================

/-- C9: every problem statement a processed thread carries has severity and
urgency in [1, 10] (baseline 5, shifted by intensity-word hits, clamped),
and the thread's overall quality score lies in [0, 100]. -/
theorem processContent_bounds (digest : String → String) (clk : Clock)
    (post : RedditPost) (comments : List RedditComment) :
    (∀ p ∈ (processContent digest clk post comments).problems,
        1 ≤ p.severity ∧ p.severity ≤ 10 ∧ 1 ≤ p.urgency ∧ p.urgency ≤ 10) ∧
    0 ≤ (processContent digest clk post comments).quality.overall ∧
    (processContent digest clk post comments).quality.overall ≤ 100 := by
  refine ⟨?_, ?_, ?_⟩
  · intro p hp
    exact extractProblems_bounds hp
  · exact (calculateQualityScore_overall_bounds post (extractProblems post comments)).1
  · exact (calculateQualityScore_overall_bounds post (extractProblems post comments)).2

/-- C9 witness: the bounds applied to the concrete problem extracted from
`problemPost`. -/
theorem processContent_bounds_witness :
    1 ≤ c9Problem.severity ∧ c9Problem.severity ≤ 10 ∧
      1 ≤ c9Problem.urgency ∧ c9Problem.urgency ≤ 10 :=
  (processContent_bounds (fun s => s) clockA problemPost []).1 c9Problem
    (by with_unfolding_all decide)

-- ===========================================================================
-- Claim C10
-- ===========================================================================

/-- C10 (implicit): every idea in the final `PipelineResult.ideas` scores at
least `generationConfig.minScore` overall — ideas below the threshold are
silently filtered out by the response parser before deduplication and
ranking. -/
theorem runPipeline_ideas_min_score (env : PipelineEnv) (config : PipelineConfig) :
    ∀ i ∈ (runPipeline env config).ideas,
      config.generationConfig.minScore ≤ i.scoring.overall := by
  have key : ∀ acc : ExecAccum, ∀ i ∈ pipelineIdeas env config acc,
      config.generationConfig.minScore ≤ i.scoring.overall := by
    intro acc i hacc
    unfold pipelineIdeas at hacc
    split at hacc
    · cases hacc
    · unfold generateIdeasFromContent at hacc
      have hmem := mem_of_mem_mergeIdeas hacc
      obtain ⟨cat, _, hcat⟩ := List.mem_flatMap.mp hmem
      cases hresp : env.genResponse cat
          (acc.content.filter (fun c => c.context.category = cat)) with
      | error e =>
        rw [hresp] at hcat
        exact absurd (show i ∈ ([] : List ProductIdea) from hcat) (List.not_mem_nil i)
      | ok raws =>
        rw [hresp] at hcat
        have hcat2 : i ∈ parseIdeas
            { maxIdeas := (⌈(config.generationConfig.maxIdeas : ℚ) /
                ((categoriesOf acc.content).length : ℚ)⌉).toNat
              minScore := config.generationConfig.minScore
              creativityLevel := config.generationConfig.creativityLevel
              model := config.generationConfig.model } env.clock.now raws := hcat
        have hle := parseIdeas_overall hcat2
        exact hle
  intro i hi
  unfold runPipeline at hi
  split at hi
  · exact key _ i hi
  · split at hi
    · exact key _ i hi
    · cases hi

/-- C10 witness: the concrete successful run returns exactly the valid
80-point idea, which meets the configured 65-point threshold. -/
theorem runPipeline_ideas_min_score_witness :
    testPipelineConfig.generationConfig.minScore ≤
      (ideaOfRaw 3600000 rawGood).scoring.overall :=
  runPipeline_ideas_min_score happyEnv testPipelineConfig (ideaOfRaw 3600000 rawGood)
    (by
      have h : (runPipeline happyEnv testPipelineConfig).ideas =
          [ideaOfRaw 3600000 rawGood] := by with_unfolding_all rfl
      rw [h]
      exact List.mem_singleton.mpr rfl)
